import Mathlib

/-!
# emu8051 core interface (`emu8051.h`)

A shallow embedding of the 8051 emulator core's header: the register, flag
and exception enumerations, the CPU record `struct em8051`, and the
operations the header declares.  C `int` values are `Int`; bytes of the
memory regions are `Nat` kept below 256.
-/

namespace Emu8051

/-! ## `enum SFR_REGS` -/

/-- SFR register locations: the enumerators of `enum SFR_REGS`, in declaration order. -/
inductive SFR_REGS where
  | REG_ACC
  | REG_B
  | REG_PSW
  | REG_SP
  | REG_DPL
  | REG_DPH
  | REG_P0
  | REG_P1
  | REG_P2
  | REG_P3
  | REG_IP
  | REG_IE
  | REG_TMOD
  | REG_TCON
  | REG_TH0
  | REG_TL0
  | REG_TH1
  | REG_TL1
  | REG_SCON
  | REG_PCON
  | REG_DPLX
  | REG_DPHX
  | REG_SAFE_MOD
  | REG_XBUS_AUX
  | REG_P1_MOD_OC
  | REG_P1_DIR_PU
  | REG_P3_MOD_OC
  | REG_P3_DIR_PU
  | REG_SBUF
  | REG_ADC_CFG
  | REG_ADC_DATA
  | REG_PWM_DATA2
  | REG_PWM_DATA1
  | REG_PWM_CTRL
  | REG_PWM_CK_SE
  | REG_WAKE_CTRL
  | REG_GLOBAL_CFG
  | REG_CLOCK_CFG
  | REG_SCON1
  | REG_SBUF1
  | REG_SBAUD1
  | REG_TKEY_CTRL
  | REG_TKEY_DATL
  | REG_TKEY_DATH
  | REG_PIN_FUNC
  | REG_GPIO_IE
  | REG_T2CON
  | REG_T2MOD
  | REG_RCAP2L
  | REG_RCAP2H
  | REG_TL2
  | REG_TH2
  | REG_T2CAP1L
  | REG_T2CAP1H
  | REG_USB_C_CTRL
  | REG_UDEV_CTRL
  | REG_UEP1_CTRL
  | REG_UEP1_T_LEN
  | REG_UEP2_CTRL
  | REG_UEP2_T_LEN
  | REG_UEP3_CTRL
  | REG_UEP3_T_LEN
  | REG_USB_INT_FG
  | REG_USB_INT_ST
  | REG_USB_MIS_ST
  | REG_USB_RX_LEN
  | REG_UEP0_CTRL
  | REG_UEP0_T_LEN
  | REG_UEP4_CTRL
  | REG_UEP4_T_LEN
  | REG_USB_INT_EN
  | REG_USB_CTRL
  | REG_USB_DEV_AD
  | REG_UEP2_DMA_L
  | REG_UEP2_DMA_H
  | REG_UEP3_DMA_L
  | REG_UEP3_DMA_H
  | REG_IE_EX
  | REG_IP_EX
  | REG_UEP4_1_MOD
  | REG_UEP2_3_MOD
  | REG_UEP0_DMA_L
  | REG_UEP0_DMA_H
  | REG_UEP1_DMA_L
  | REG_UEP1_DMA_H
  | REG_ROM_ADDR_L
  | REG_ROM_ADDR_H
  | REG_ROM_CTRL
  | REG_ROM_DATA_L
  | REG_ROM_DATA_H
  | REG_SPI0_STAT
  | REG_SPI0_DATA
  | REG_SPI0_CTRL
  | REG_SPI0_CK_SE
  | REG_SPI0_SETUP
  | REG_RESET_KEEP
  | REG_WDOG_COUNT
  deriving DecidableEq, Repr

namespace SFR_REGS

/-- Machine address written on the left of each enumerator (`REG_ACC = 0xE0 - 0x80`). -/
def addr : SFR_REGS → Int
  | REG_ACC => 0xE0
  | REG_B => 0xF0
  | REG_PSW => 0xD0
  | REG_SP => 0x81
  | REG_DPL => 0x82
  | REG_DPH => 0x83
  | REG_P0 => 0x80
  | REG_P1 => 0x90
  | REG_P2 => 0xA0
  | REG_P3 => 0xB0
  | REG_IP => 0xB8
  | REG_IE => 0xA8
  | REG_TMOD => 0x89
  | REG_TCON => 0x88
  | REG_TH0 => 0x8C
  | REG_TL0 => 0x8A
  | REG_TH1 => 0x8D
  | REG_TL1 => 0x8B
  | REG_SCON => 0x98
  | REG_PCON => 0x87
  | REG_DPLX => 0xAE
  | REG_DPHX => 0xAF
  | REG_SAFE_MOD => 0xA1
  | REG_XBUS_AUX => 0xA2
  | REG_P1_MOD_OC => 0x92
  | REG_P1_DIR_PU => 0x93
  | REG_P3_MOD_OC => 0x96
  | REG_P3_DIR_PU => 0x97
  | REG_SBUF => 0x99
  | REG_ADC_CFG => 0x9A
  | REG_ADC_DATA => 0x9F
  | REG_PWM_DATA2 => 0x9B
  | REG_PWM_DATA1 => 0x9C
  | REG_PWM_CTRL => 0x9D
  | REG_PWM_CK_SE => 0x9E
  | REG_WAKE_CTRL => 0xA9
  | REG_GLOBAL_CFG => 0xB1
  | REG_CLOCK_CFG => 0xB9
  | REG_SCON1 => 0xC0
  | REG_SBUF1 => 0xC1
  | REG_SBAUD1 => 0xC2
  | REG_TKEY_CTRL => 0xC3
  | REG_TKEY_DATL => 0xC4
  | REG_TKEY_DATH => 0xC5
  | REG_PIN_FUNC => 0xC6
  | REG_GPIO_IE => 0xC7
  | REG_T2CON => 0xC8
  | REG_T2MOD => 0xC9
  | REG_RCAP2L => 0xCA
  | REG_RCAP2H => 0xCB
  | REG_TL2 => 0xCC
  | REG_TH2 => 0xCD
  | REG_T2CAP1L => 0xCE
  | REG_T2CAP1H => 0xCF
  | REG_USB_C_CTRL => 0x91
  | REG_UDEV_CTRL => 0xD1
  | REG_UEP1_CTRL => 0xD2
  | REG_UEP1_T_LEN => 0xD3
  | REG_UEP2_CTRL => 0xD4
  | REG_UEP2_T_LEN => 0xD5
  | REG_UEP3_CTRL => 0xD6
  | REG_UEP3_T_LEN => 0xD7
  | REG_USB_INT_FG => 0xD8
  | REG_USB_INT_ST => 0xD9
  | REG_USB_MIS_ST => 0xDA
  | REG_USB_RX_LEN => 0xDB
  | REG_UEP0_CTRL => 0xDC
  | REG_UEP0_T_LEN => 0xDD
  | REG_UEP4_CTRL => 0xDE
  | REG_UEP4_T_LEN => 0xDF
  | REG_USB_INT_EN => 0xE1
  | REG_USB_CTRL => 0xE2
  | REG_USB_DEV_AD => 0xE3
  | REG_UEP2_DMA_L => 0xE4
  | REG_UEP2_DMA_H => 0xE5
  | REG_UEP3_DMA_L => 0xE6
  | REG_UEP3_DMA_H => 0xE7
  | REG_IE_EX => 0xE8
  | REG_IP_EX => 0xE9
  | REG_UEP4_1_MOD => 0xEA
  | REG_UEP2_3_MOD => 0xEB
  | REG_UEP0_DMA_L => 0xEC
  | REG_UEP0_DMA_H => 0xED
  | REG_UEP1_DMA_L => 0xEE
  | REG_UEP1_DMA_H => 0xEF
  | REG_ROM_ADDR_L => 0x84
  | REG_ROM_ADDR_H => 0x85
  | REG_ROM_CTRL => 0x86
  | REG_ROM_DATA_L => 0x8E
  | REG_ROM_DATA_H => 0x8F
  | REG_SPI0_STAT => 0xF8
  | REG_SPI0_DATA => 0xF9
  | REG_SPI0_CTRL => 0xFA
  | REG_SPI0_CK_SE => 0xFB
  | REG_SPI0_SETUP => 0xFC
  | REG_RESET_KEEP => 0xFE
  | REG_WDOG_COUNT => 0xFF

/-- Value of the enumerator: every one is written `<address> - 0x80`. -/
def val (r : SFR_REGS) : Int := r.addr - 0x80

/-- All enumerators, in declaration order. -/
def all : List SFR_REGS :=
  [REG_ACC, REG_B, REG_PSW, REG_SP, REG_DPL, REG_DPH, REG_P0, REG_P1, REG_P2, REG_P3, REG_IP,
   REG_IE, REG_TMOD, REG_TCON, REG_TH0, REG_TL0, REG_TH1, REG_TL1, REG_SCON, REG_PCON,
   REG_DPLX, REG_DPHX, REG_SAFE_MOD, REG_XBUS_AUX, REG_P1_MOD_OC, REG_P1_DIR_PU, REG_P3_MOD_OC,
   REG_P3_DIR_PU, REG_SBUF, REG_ADC_CFG, REG_ADC_DATA, REG_PWM_DATA2, REG_PWM_DATA1,
   REG_PWM_CTRL, REG_PWM_CK_SE, REG_WAKE_CTRL, REG_GLOBAL_CFG, REG_CLOCK_CFG, REG_SCON1,
   REG_SBUF1, REG_SBAUD1, REG_TKEY_CTRL, REG_TKEY_DATL, REG_TKEY_DATH, REG_PIN_FUNC,
   REG_GPIO_IE, REG_T2CON, REG_T2MOD, REG_RCAP2L, REG_RCAP2H, REG_TL2, REG_TH2, REG_T2CAP1L,
   REG_T2CAP1H, REG_USB_C_CTRL, REG_UDEV_CTRL, REG_UEP1_CTRL, REG_UEP1_T_LEN, REG_UEP2_CTRL,
   REG_UEP2_T_LEN, REG_UEP3_CTRL, REG_UEP3_T_LEN, REG_USB_INT_FG, REG_USB_INT_ST,
   REG_USB_MIS_ST, REG_USB_RX_LEN, REG_UEP0_CTRL, REG_UEP0_T_LEN, REG_UEP4_CTRL,
   REG_UEP4_T_LEN, REG_USB_INT_EN, REG_USB_CTRL, REG_USB_DEV_AD, REG_UEP2_DMA_L,
   REG_UEP2_DMA_H, REG_UEP3_DMA_L, REG_UEP3_DMA_H, REG_IE_EX, REG_IP_EX, REG_UEP4_1_MOD,
   REG_UEP2_3_MOD, REG_UEP0_DMA_L, REG_UEP0_DMA_H, REG_UEP1_DMA_L, REG_UEP1_DMA_H,
   REG_ROM_ADDR_L, REG_ROM_ADDR_H, REG_ROM_CTRL, REG_ROM_DATA_L, REG_ROM_DATA_H, REG_SPI0_STAT,
   REG_SPI0_DATA, REG_SPI0_CTRL, REG_SPI0_CK_SE, REG_SPI0_SETUP, REG_RESET_KEEP, REG_WDOG_COUNT]

end SFR_REGS

/-- The `mSFR` bank holds 128 bytes (`unsigned char *mSFR; // 128 bytes`). -/
def SFR_SIZE : Nat := 128

/-- Offset of a register in the `mSFR` bank, as used in `aCPU->mSFR[REG_SP]`. -/
def SFR_REGS.idx (r : SFR_REGS) : Nat := r.val.toNat

/-! ## `enum PSW_BITS`, `enum PSW_MASKS` -/

/-- Bit positions of the program status word. -/
inductive PSW_BITS where
  | PSW_P | PSW_F1 | PSW_OV | PSW_RS0 | PSW_RS1 | PSW_F0 | PSW_AC | PSW_C
  deriving DecidableEq, Repr

/-- Values of `enum PSW_BITS` as written in the header. -/
def PSW_BITS.val : PSW_BITS → Nat
  | PSW_P => 0
  | PSW_F1 => 1
  | PSW_OV => 2
  | PSW_RS0 => 3
  | PSW_RS1 => 4
  | PSW_F0 => 5
  | PSW_AC => 6
  | PSW_C => 7

/-- Masks of the program status word. -/
inductive PSW_MASKS where
  | PSWMASK_P | PSWMASK_UNUSED | PSWMASK_OV | PSWMASK_RS0 | PSWMASK_RS1 | PSWMASK_F0
  | PSWMASK_AC | PSWMASK_C
  deriving DecidableEq, Repr

/-- Values of `enum PSW_MASKS` as written in the header. -/
def PSW_MASKS.val : PSW_MASKS → Nat
  | PSWMASK_P => 0x01
  | PSWMASK_UNUSED => 0x02
  | PSWMASK_OV => 0x04
  | PSWMASK_RS0 => 0x08
  | PSWMASK_RS1 => 0x10
  | PSWMASK_F0 => 0x20
  | PSWMASK_AC => 0x40
  | PSWMASK_C => 0x80

/-- All masks, in declaration order. -/
def PSW_MASKS.all : List PSW_MASKS :=
  [PSWMASK_P, PSWMASK_UNUSED, PSWMASK_OV, PSWMASK_RS0, PSWMASK_RS1, PSWMASK_F0, PSWMASK_AC,
   PSWMASK_C]

/-! ## `enum EM8051_EXCEPTION` -/

/-- Codes handed to the exception callback. -/
inductive EM8051_EXCEPTION where
  /-- stack address > 127 with no upper memory, or roll over -/
  | EXCEPTION_STACK
  /-- acc-to-a move operation; illegal -/
  | EXCEPTION_ACC_TO_A
  /-- psw not preserved over interrupt call (doesn't care about P, F0 or UNUSED) -/
  | EXCEPTION_IRET_PSW_MISMATCH
  /-- sp not preserved over interrupt call -/
  | EXCEPTION_IRET_SP_MISMATCH
  /-- acc not preserved over interrupt call -/
  | EXCEPTION_IRET_ACC_MISMATCH
  /-- for the single 'reserved' opcode in the architecture -/
  | EXCEPTION_ILLEGAL_OPCODE
  deriving DecidableEq, Repr

/-- All exception codes, in declaration order. -/
def EM8051_EXCEPTION.all : List EM8051_EXCEPTION :=
  [EXCEPTION_STACK, EXCEPTION_ACC_TO_A, EXCEPTION_IRET_PSW_MISMATCH,
   EXCEPTION_IRET_SP_MISMATCH, EXCEPTION_IRET_ACC_MISMATCH, EXCEPTION_ILLEGAL_OPCODE]

/-- Value of an enumerator.  The enumeration has no initialisers, so C numbers the
enumerators from 0 in declaration order: the value is the place in the declaration. -/
def EM8051_EXCEPTION.val (e : EM8051_EXCEPTION) : Nat := EM8051_EXCEPTION.all.indexOf e

/-! ## `struct em8051` -/

/-- A function-pointer field of the C record: `NULL`, or the address of one of the core's
built-in routines, named by a number. -/
inductive FnPtr where
  | null
  | builtin (id : Nat)
  deriving DecidableEq, Repr

/-- The CPU record `struct em8051`.  Buffers are lists of bytes, `mUpperData` is `none`
for a `NULL` pointer, the `int` fields hold non-negative values and are `Nat`. -/
structure em8051 where
  /-- Code memory: 1k - 64k, must be power of 2 -/
  mCodeMem : List Nat
  mCodeMemSize : Nat
  /-- External data: 0 - 64k, must be power of 2 -/
  mExtData : List Nat
  mExtDataSize : Nat
  /-- Lower data: 128 bytes -/
  mLowerData : List Nat
  /-- Upper data: 0 or 128 bytes; leave to NULL if none -/
  mUpperData : Option (List Nat)
  /-- Special function registers: 128 bytes -/
  mSFR : List Nat
  /-- Program Counter; outside memory area -/
  mPC : Nat
  /-- How many ticks should we delay before continuing -/
  mTickDelay : Nat
  /-- function pointers to opcode handlers (`op[256]`) -/
  op : List FnPtr
  /-- opcode-to-string decoder handlers (`dec[256]`) -/
  dec : List FnPtr
  /-- callback: exceptional situation occurred -/
  except_cb : FnPtr
  /-- callback: SFR register being read -/
  sfrread : FnPtr
  /-- callback: SFR register written -/
  sfrwrite : FnPtr
  /-- callback: external memory being read -/
  xread : FnPtr
  /-- callback: external memory being written -/
  xwrite : FnPtr
  mInterruptActive : Nat
  /-- Stored register values for interrupts (exception checking), `int_a[2]` -/
  int_a : List Nat
  int_psw : List Nat
  int_sp : List Nat
  deriving DecidableEq, Repr

namespace em8051

/-- The sizes the header's comments give for the internal buffers: 128 bytes of lower
data, 128 bytes of upper data when there is any, 128 bytes of SFR, each cell a byte. -/
def wf (c : em8051) : Prop :=
  c.mLowerData.length = 128 ∧ (∀ u ∈ c.mUpperData, u.length = 128) ∧
    c.mSFR.length = SFR_SIZE ∧ ∀ b ∈ c.mSFR, b < 256

instance (c : em8051) : Decidable c.wf := by
  unfold wf; infer_instance

/-- Read of `aCPU->mSFR[r]`. -/
def sfr (c : em8051) (r : SFR_REGS) : Nat := c.mSFR.getD r.idx 0

/-- Byte of internal data memory at an 8-bit address: lower data below 128, upper data
from 128 on, nothing when there is no upper data. -/
def idata (c : em8051) (a : Nat) : Option Nat :=
  if a < 128 then c.mLowerData[a]?
  else match c.mUpperData with
    | some u => u[a - 128]?
    | none => none

end em8051

/-! ## Exception channel -/

/-- Modelled from the spec: the bodies that call `except_cb` are not in `emu8051.h`.
An anomaly is reported by handing the callback one code of `EM8051_EXCEPTION`; the
result is the list of codes (`int aCode`) handed over, in order. -/
def raise (e : EM8051_EXCEPTION) : List Nat := [e.val]

/-! ## `push_to_stack` -/

/-- Modelled from the spec: the body of `push_to_stack` is not in `emu8051.h`, which only
declares it.  The stack pointer register is incremented first (a byte, so modulo 256),
then the value is written at the address the register now holds: lower data below 128,
upper data from 128 on.  The stack exception is reported when that address is above 127
with no upper data installed, and when the increment wrapped. -/
def push_to_stack (aCPU : em8051) (aValue : Int) : em8051 × List Nat :=
  let inc := aCPU.sfr .REG_SP + 1
  let sp := inc % 256
  let byte := (aValue % 256).toNat
  let s : em8051 := { aCPU with mSFR := aCPU.mSFR.set SFR_REGS.REG_SP.idx sp }
  let stored : em8051 × List Nat :=
    if sp > 127 then
      match s.mUpperData with
      | some u => ({ s with mUpperData := some (u.set (sp - 128) byte) }, [])
      | none => (s, raise .EXCEPTION_STACK)
    else ({ s with mLowerData := s.mLowerData.set sp byte }, [])
  (stored.1, stored.2 ++ (if inc > 255 then raise .EXCEPTION_STACK else []))

/-! ## Interrupt return -/

/-- Bits of the status word the interrupt-return comparison leaves out: parity, the
unused flag and the user flag. -/
def PSW_IRET_IGNORED : Nat :=
  PSW_MASKS.PSWMASK_P.val ||| PSW_MASKS.PSWMASK_UNUSED.val ||| PSW_MASKS.PSWMASK_F0.val

/-- Modelled from the spec: the return-from-interrupt handler is not in `emu8051.h`.  At
the return of a service of level `aLevel` the current accumulator, status word and stack
pointer are compared with the values stored at entry (`int_a`, `int_psw`, `int_sp`); the
status words are compared without the bits of `PSW_IRET_IGNORED`.  Each difference
reports its own code; the return itself is not held up. -/
def iret_check (aCPU : em8051) (aLevel : Nat) : List Nat :=
  let keep := 0xFF ^^^ PSW_IRET_IGNORED
  (if aCPU.int_a.getD aLevel 0 ≠ aCPU.sfr .REG_ACC
    then raise .EXCEPTION_IRET_ACC_MISMATCH else []) ++
  (if aCPU.int_psw.getD aLevel 0 &&& keep ≠ aCPU.sfr .REG_PSW &&& keep
    then raise .EXCEPTION_IRET_PSW_MISMATCH else []) ++
  (if aCPU.int_sp.getD aLevel 0 ≠ aCPU.sfr .REG_SP
    then raise .EXCEPTION_IRET_SP_MISMATCH else [])

/-! ## `reset` -/

/-- Modelled from the spec: the architecture's power-on values, which `emu8051.h` does
not give: the entry vector the program counter is reset to, the stack pointer default and
the value of the port registers. -/
structure PowerOn where
  entry : Nat
  sp : Nat
  port : Nat
  deriving DecidableEq, Repr

/-- The built-in routine of every slot of a 256-entry table. -/
def default_table : List FnPtr := (List.range 256).map FnPtr.builtin

/-- A buffer of the same size with every byte zero (`memset(p, 0, size)`). -/
def wipe (m : List Nat) : List Nat := List.replicate m.length 0

/-- Modelled from the spec: the body of `reset` is not in `emu8051.h`, which only
declares it.  With `aWipe` every memory region is zeroed; then the default dispatch
tables and callbacks are installed and the program counter, the stack pointer and the
port registers get their power-on values. -/
def reset (arch : PowerOn) (aCPU : em8051) (aWipe : Bool) : em8051 :=
  let s : em8051 :=
    if aWipe then
      { aCPU with
        mCodeMem := wipe aCPU.mCodeMem
        mExtData := wipe aCPU.mExtData
        mLowerData := wipe aCPU.mLowerData
        mUpperData := aCPU.mUpperData.map wipe
        mSFR := wipe aCPU.mSFR }
    else aCPU
  let regs := ((((s.mSFR.set SFR_REGS.REG_SP.idx arch.sp).set SFR_REGS.REG_P0.idx arch.port).set
    SFR_REGS.REG_P1.idx arch.port).set SFR_REGS.REG_P2.idx arch.port).set
      SFR_REGS.REG_P3.idx arch.port
  { s with
    mSFR := regs
    mPC := arch.entry
    op := default_table
    dec := default_table
    except_cb := .builtin 0
    sfrread := .builtin 1
    sfrwrite := .builtin 2
    xread := .builtin 3
    xwrite := .builtin 4 }

/-! ## `tick` -/

/-- A small machine used to evaluate the definitions: 1 KiB of code starting with a
two-byte instruction (`0xA8 0x30`) followed by zero bytes, no external data, upper data
installed. -/
def sample : em8051 where
  mCodeMem := [0xA8, 0x30] ++ List.replicate 1022 0
  mCodeMemSize := 1024
  mExtData := []
  mExtDataSize := 0
  mLowerData := List.replicate 128 0
  mUpperData := some (List.replicate 128 0)
  mSFR := (List.replicate 128 0).set 1 7
  mPC := 0
  mTickDelay := 0
  op := default_table
  dec := default_table
  except_cb := .builtin 0
  sfrread := .builtin 1
  sfrwrite := .builtin 2
  xread := .builtin 3
  xwrite := .builtin 4
  mInterruptActive := 0
  int_a := [0, 0]
  int_psw := [0, 0]
  int_sp := [0, 0]

/-- A machine without upper data whose stack pointer is at the top of lower data. -/
def sample_full : em8051 :=
  { sample with mUpperData := none, mSFR := (List.replicate 128 0).set 1 127 }

/-- A machine inside a level-1 service whose handler moved the stack pointer and touched
only the parity, unused and user flags of the status word. -/
def sample_isr : em8051 :=
  { sample with
    mSFR := (((List.replicate 128 0).set SFR_REGS.REG_SP.idx 9).set SFR_REGS.REG_ACC.idx
      0x5A).set SFR_REGS.REG_PSW.idx 0xA3
    mInterruptActive := 2
    int_a := [0, 0x5A]
    int_psw := [0, 0x80]
    int_sp := [0, 7] }

/-- The 8051's power-on values: execution starts at address 0, the stack pointer is 7 and
the port latches are all ones. -/
def arch8051 : PowerOn := { entry := 0, sp := 7, port := 0xFF }

/-- A machine with data left over from an earlier run. -/
def sample_dirty : em8051 :=
  { sample with
    mExtData := [1, 2, 3, 4]
    mExtDataSize := 4
    mLowerData := (List.replicate 128 0).set 5 0x99
    mUpperData := some ((List.replicate 128 0).set 6 0x77)
    mPC := 0x123
    op := []
    dec := []
    except_cb := .null }

theorem SFR_REGS.mem_all (r : SFR_REGS) : r ∈ SFR_REGS.all := by
  cases r <;> simp [SFR_REGS.all]

set_option maxRecDepth 100000 in
theorem SFR_REGS.nodup_vals : (SFR_REGS.all.map SFR_REGS.val).Nodup := by
  decide

theorem SFR_REGS.val_injective : Function.Injective SFR_REGS.val := fun a b h =>
  List.inj_on_of_nodup_map SFR_REGS.nodup_vals (SFR_REGS.mem_all a) (SFR_REGS.mem_all b) h

theorem SFR_REGS.val_bounds (r : SFR_REGS) : 0 ≤ r.val ∧ r.val ≤ 0x7F := by
  cases r <;> decide

set_option maxRecDepth 100000 in
theorem sample_wf : sample.wf := by
  decide

/-- C1: every register constant of `enum SFR_REGS` is its machine address minus 0x80, the
machine address lies in 0x80..0xFF, so the index lies in 0..0x7F and is an offset inside
the 128-byte bank `mSFR` of every well-formed CPU record. -/
theorem sfr_regs_index_in_bank (r : SFR_REGS) (c : em8051) (hc : c.wf) :
    r.val = r.addr - 0x80 ∧ 0x80 ≤ r.addr ∧ r.addr ≤ 0xFF ∧ 0 ≤ r.val ∧ r.val ≤ 0x7F ∧
      (r.idx : Int) = r.val ∧ r.idx < SFR_SIZE ∧ r.idx < c.mSFR.length := by
  have hlen : c.mSFR.length = SFR_SIZE := hc.2.2.1
  rw [hlen]
  cases r <;> decide

theorem sfr_regs_index_in_bank_witness :
    sample.wf ∧ SFR_REGS.REG_WDOG_COUNT.idx < sample.mSFR.length :=
  ⟨sample_wf, (sfr_regs_index_in_bank .REG_WDOG_COUNT sample sample_wf).2.2.2.2.2.2.2⟩

/-- C2: the register table reproduces the architectural 8051 addresses: index + 0x80 is
0xE0 for ACC, 0xF0 for B, 0xD0 for PSW, 0x81 for SP, 0x82/0x83 for DPL/DPH,
0x80/0x90/0xA0/0xB0 for P0..P3, 0xA8 for IE, 0xB8 for IP, 0x88 for TCON, 0x89 for TMOD,
0x8A/0x8B for TL0/TL1, 0x8C/0x8D for TH0/TH1, 0x98 for SCON, 0x99 for SBUF and 0x87 for
PCON. -/
theorem sfr_regs_standard_addresses :
    SFR_REGS.REG_ACC.val + 0x80 = 0xE0 ∧ SFR_REGS.REG_B.val + 0x80 = 0xF0 ∧
    SFR_REGS.REG_PSW.val + 0x80 = 0xD0 ∧ SFR_REGS.REG_SP.val + 0x80 = 0x81 ∧
    SFR_REGS.REG_DPL.val + 0x80 = 0x82 ∧ SFR_REGS.REG_DPH.val + 0x80 = 0x83 ∧
    SFR_REGS.REG_P0.val + 0x80 = 0x80 ∧ SFR_REGS.REG_P1.val + 0x80 = 0x90 ∧
    SFR_REGS.REG_P2.val + 0x80 = 0xA0 ∧ SFR_REGS.REG_P3.val + 0x80 = 0xB0 ∧
    SFR_REGS.REG_IE.val + 0x80 = 0xA8 ∧ SFR_REGS.REG_IP.val + 0x80 = 0xB8 ∧
    SFR_REGS.REG_TCON.val + 0x80 = 0x88 ∧ SFR_REGS.REG_TMOD.val + 0x80 = 0x89 ∧
    SFR_REGS.REG_TL0.val + 0x80 = 0x8A ∧ SFR_REGS.REG_TL1.val + 0x80 = 0x8B ∧
    SFR_REGS.REG_TH0.val + 0x80 = 0x8C ∧ SFR_REGS.REG_TH1.val + 0x80 = 0x8D ∧
    SFR_REGS.REG_SCON.val + 0x80 = 0x98 ∧ SFR_REGS.REG_SBUF.val + 0x80 = 0x99 ∧
    SFR_REGS.REG_PCON.val + 0x80 = 0x87 := by
  decide

/-- C10: the register table is injective: two distinct names of `enum SFR_REGS` never
have the same index, so no machine address in 0x80..0xFF is claimed by two named registers
(the list of all 97 values has no repetition). -/
theorem sfr_regs_no_collision (a b : SFR_REGS) (hab : a ≠ b) :
    a.val ≠ b.val ∧ a.idx ≠ b.idx ∧ a.addr ≠ b.addr ∧
      (SFR_REGS.all.map SFR_REGS.val).Nodup ∧ SFR_REGS.all.length = 97 := by
  have hv : a.val ≠ b.val := fun h => hab (SFR_REGS.val_injective h)
  refine ⟨hv, ?_, ?_, SFR_REGS.nodup_vals, by decide⟩
  · intro h
    apply hv
    have ha := (SFR_REGS.val_bounds a).1
    have hb := (SFR_REGS.val_bounds b).1
    unfold SFR_REGS.idx at h
    omega
  · intro h
    apply hv
    unfold SFR_REGS.val
    rw [h]

theorem sfr_regs_no_collision_witness :
    SFR_REGS.REG_SBUF ≠ SFR_REGS.REG_ADC_CFG ∧
      SFR_REGS.REG_SBUF.val ≠ SFR_REGS.REG_ADC_CFG.val :=
  ⟨by decide, (sfr_regs_no_collision .REG_SBUF .REG_ADC_CFG (by decide)).1⟩

/-! ## Status word -/

/-- C9: the bit-position table and the mask table of the status word agree: the mask at
every bit position b in 0..7 is 2^b (`PSWMASK_C` = 1 << `PSW_C`, and so on; the mask named
`PSWMASK_UNUSED` is 1 << `PSW_F1`), the eight masks are pairwise disjoint, their bitwise
OR is 0xFF, and the bits left out by the interrupt-return check (P, UNUSED, F0) form the
mask 0x23. -/
theorem psw_masks_match_bits :
    PSW_MASKS.PSWMASK_C.val = 1 <<< PSW_BITS.PSW_C.val ∧
    PSW_MASKS.PSWMASK_AC.val = 1 <<< PSW_BITS.PSW_AC.val ∧
    PSW_MASKS.PSWMASK_F0.val = 1 <<< PSW_BITS.PSW_F0.val ∧
    PSW_MASKS.PSWMASK_RS1.val = 1 <<< PSW_BITS.PSW_RS1.val ∧
    PSW_MASKS.PSWMASK_RS0.val = 1 <<< PSW_BITS.PSW_RS0.val ∧
    PSW_MASKS.PSWMASK_OV.val = 1 <<< PSW_BITS.PSW_OV.val ∧
    PSW_MASKS.PSWMASK_P.val = 1 <<< PSW_BITS.PSW_P.val ∧
    PSW_MASKS.PSWMASK_UNUSED.val = 1 <<< PSW_BITS.PSW_F1.val ∧
    PSW_MASKS.all.map PSW_MASKS.val = (List.range 8).map (fun b => 2 ^ b) ∧
    (∀ m : PSW_MASKS, m ∈ PSW_MASKS.all) ∧
    (∀ m n : PSW_MASKS, m = n ∨ m.val &&& n.val = 0) ∧
    PSW_MASKS.all.foldl (fun acc m => acc ||| m.val) 0 = 0xFF ∧
    PSW_IRET_IGNORED = 0x23 := by
  refine ⟨by decide, by decide, by decide, by decide, by decide, by decide, by decide,
    by decide, by decide, ?_, ?_, by decide, by decide⟩
  · intro m; cases m <;> decide
  · intro m n; cases m <;> cases n <;> decide

/-! ## Exception codes -/

theorem em8051.sfr_lt (c : em8051) (hc : c.wf) (r : SFR_REGS) : c.sfr r < 256 := by
  unfold em8051.sfr
  rw [List.getD_eq_getElem?_getD]
  cases hg : c.mSFR[r.idx]? with
  | none => simp
  | some b =>
    have hb : b ∈ c.mSFR := List.getElem?_mem hg
    simpa using hc.2.2.2 b hb

theorem raise_val (e : EM8051_EXCEPTION) (c : Nat) (h : c ∈ raise e) : c = e.val := by
  simpa [raise] using h

theorem push_to_stack_codes (aCPU : em8051) (aValue : Int) (c : Nat)
    (h : c ∈ (push_to_stack aCPU aValue).2) : c = EM8051_EXCEPTION.EXCEPTION_STACK.val := by
  unfold push_to_stack at h
  simp only [List.mem_append] at h
  rcases h with h | h
  · split at h
    · split at h
      · simp at h
      · exact raise_val _ _ h
    · simp at h
  · split at h
    · exact raise_val _ _ h
    · simp at h

theorem iret_check_codes (aCPU : em8051) (aLevel : Nat) (c : Nat)
    (h : c ∈ iret_check aCPU aLevel) :
    c = EM8051_EXCEPTION.EXCEPTION_IRET_ACC_MISMATCH.val ∨
    c = EM8051_EXCEPTION.EXCEPTION_IRET_PSW_MISMATCH.val ∨
    c = EM8051_EXCEPTION.EXCEPTION_IRET_SP_MISMATCH.val := by
  unfold iret_check at h
  simp only [List.mem_append] at h
  rcases h with (h | h) | h
  · split at h
    · exact Or.inl (raise_val _ _ h)
    · simp at h
  · split at h
    · exact Or.inr (Or.inl (raise_val _ _ h))
    · simp at h
  · split at h
    · exact Or.inr (Or.inr (raise_val _ _ h))
    · simp at h

/-- C3: the exception code set has exactly six members, numbered 0..5 in declaration
order and pairwise distinct: stack overflow or rollover, illegal accumulator-to-A move,
PSW mismatch, SP mismatch and accumulator mismatch on interrupt return, illegal opcode;
every code the exception channel hands over (from `raise`, `push_to_stack` and the
interrupt-return check) is the value of one of them. -/
theorem exception_codes_six :
    EM8051_EXCEPTION.all.length = 6 ∧
    (∀ e : EM8051_EXCEPTION, e ∈ EM8051_EXCEPTION.all) ∧
    EM8051_EXCEPTION.all.map EM8051_EXCEPTION.val = [0, 1, 2, 3, 4, 5] ∧
    EM8051_EXCEPTION.EXCEPTION_STACK.val = 0 ∧
    EM8051_EXCEPTION.EXCEPTION_ACC_TO_A.val = 1 ∧
    EM8051_EXCEPTION.EXCEPTION_IRET_PSW_MISMATCH.val = 2 ∧
    EM8051_EXCEPTION.EXCEPTION_IRET_SP_MISMATCH.val = 3 ∧
    EM8051_EXCEPTION.EXCEPTION_IRET_ACC_MISMATCH.val = 4 ∧
    EM8051_EXCEPTION.EXCEPTION_ILLEGAL_OPCODE.val = 5 ∧
    Function.Injective EM8051_EXCEPTION.val ∧
    (∀ (e : EM8051_EXCEPTION) (c : Nat), c ∈ raise e → c < 6 ∧ ∃ f : EM8051_EXCEPTION, f.val = c) ∧
    (∀ (aCPU : em8051) (aValue : Int) (c : Nat), c ∈ (push_to_stack aCPU aValue).2 →
      c < 6 ∧ ∃ f : EM8051_EXCEPTION, f.val = c) ∧
    (∀ (aCPU : em8051) (aLevel c : Nat), c ∈ iret_check aCPU aLevel →
      c < 6 ∧ ∃ f : EM8051_EXCEPTION, f.val = c) := by
  have hlt : ∀ e : EM8051_EXCEPTION, e.val < 6 := by
    intro e; cases e <;> decide
  refine ⟨rfl, ?_, by decide, by decide, by decide, by decide, by decide, by decide,
    by decide, ?_, ?_, ?_, ?_⟩
  · intro e; cases e <;> decide
  · intro e f; cases e <;> cases f <;> decide
  · intro e c h
    rw [raise_val e c h]
    exact ⟨hlt e, e, rfl⟩
  · intro aCPU aValue c h
    rw [push_to_stack_codes aCPU aValue c h]
    exact ⟨hlt _, _, rfl⟩
  · intro aCPU aLevel c h
    rcases iret_check_codes aCPU aLevel c h with h | h | h <;> rw [h] <;> exact ⟨hlt _, _, rfl⟩

set_option maxRecDepth 100000 in
theorem sample_full_wf : sample_full.wf := by
  decide

theorem exception_codes_six_witness :
    0 ∈ (push_to_stack sample_full 0x42).2 ∧ ∃ f : EM8051_EXCEPTION, f.val = 0 :=
  ⟨by decide, (exception_codes_six.2.2.2.2.2.2.2.2.2.2.2.1 sample_full 0x42 0 (by decide)).2⟩

/-! ## Stack push -/

theorem push_to_stack_mSFR (aCPU : em8051) (aValue : Int) :
    (push_to_stack aCPU aValue).1.mSFR =
      aCPU.mSFR.set SFR_REGS.REG_SP.idx ((aCPU.sfr .REG_SP + 1) % 256) := by
  unfold push_to_stack
  dsimp only
  split
  · split <;> rfl
  · rfl

theorem push_to_stack_sp (aCPU : em8051) (aValue : Int) (hc : aCPU.wf) :
    (push_to_stack aCPU aValue).1.sfr .REG_SP = (aCPU.sfr .REG_SP + 1) % 256 := by
  have hlen : SFR_REGS.REG_SP.idx < aCPU.mSFR.length := by
    rw [hc.2.2.1]; decide
  unfold em8051.sfr
  rw [push_to_stack_mSFR]
  simp [em8051.sfr, List.getD_eq_getElem?_getD, hlen]

theorem push_to_stack_stored (aCPU : em8051) (aValue : Int) (hc : aCPU.wf)
    (hb : (aCPU.sfr .REG_SP + 1) % 256 ≤ 127 ∨ aCPU.mUpperData.isSome) :
    (push_to_stack aCPU aValue).1.idata ((aCPU.sfr .REG_SP + 1) % 256) =
      some (aValue % 256).toNat := by
  have hlow : aCPU.mLowerData.length = 128 := hc.1
  have hlt : (aCPU.sfr .REG_SP + 1) % 256 < 256 := Nat.mod_lt _ (by decide)
  unfold push_to_stack em8051.idata
  dsimp only
  by_cases hsp : (aCPU.sfr .REG_SP + 1) % 256 > 127
  · rw [if_pos hsp]
    cases hu : aCPU.mUpperData with
    | none =>
      rw [hu] at hb
      simp at hb
      omega
    | some u =>
      have hul : u.length = 128 := hc.2.1 u (by simp [hu])
      have h1 : ¬ (aCPU.sfr .REG_SP + 1) % 256 < 128 := by omega
      have h2 : (aCPU.sfr .REG_SP + 1) % 256 - 128 < u.length := by omega
      simp [h1, h2]
  · rw [if_neg hsp]
    have h1 : (aCPU.sfr .REG_SP + 1) % 256 < 128 := by omega
    have h2 : (aCPU.sfr .REG_SP + 1) % 256 < aCPU.mLowerData.length := by omega
    simp [h1, h2]

theorem push_to_stack_raised (aCPU : em8051) (aValue : Int) (hc : aCPU.wf) :
    (push_to_stack aCPU aValue).2 =
      if ((aCPU.sfr .REG_SP + 1) % 256 > 127 ∧ aCPU.mUpperData = none) ∨
          aCPU.sfr .REG_SP = 255
        then [EM8051_EXCEPTION.EXCEPTION_STACK.val] else [] := by
  have hold : aCPU.sfr .REG_SP < 256 := aCPU.sfr_lt hc _
  unfold push_to_stack raise
  dsimp only
  by_cases hsp : (aCPU.sfr .REG_SP + 1) % 256 > 127
  · have hw : ¬ aCPU.sfr .REG_SP + 1 > 255 := by omega
    have hw2 : ¬ aCPU.sfr .REG_SP = 255 := by omega
    rw [if_pos hsp, if_neg hw]
    cases hu : aCPU.mUpperData with
    | none => simp [hsp]
    | some u => simp [hw2]
  · rw [if_neg hsp]
    by_cases hw : aCPU.sfr .REG_SP + 1 > 255
    · have hw2 : aCPU.sfr .REG_SP = 255 := by omega
      simp [hw2]
    · have hw2 : ¬ aCPU.sfr .REG_SP = 255 := by omega
      simp [hw, hw2, hsp]

/-- C8: `push_to_stack` first increments the stack pointer register (modulo 256) and then
stores the value at the address the new stack pointer gives; it raises `EXCEPTION_STACK`
exactly once for that push if the new stack address is above 127 while no upper data is
installed or the stack pointer rolled over (it was 255), and raises nothing otherwise. -/
theorem push_to_stack_spec (aCPU : em8051) (aValue : Int) (hc : aCPU.wf) :
    (push_to_stack aCPU aValue).1.sfr .REG_SP = (aCPU.sfr .REG_SP + 1) % 256 ∧
    (((aCPU.sfr .REG_SP + 1) % 256 ≤ 127 ∨ aCPU.mUpperData.isSome) →
      (push_to_stack aCPU aValue).1.idata ((aCPU.sfr .REG_SP + 1) % 256) =
        some (aValue % 256).toNat) ∧
    ((((aCPU.sfr .REG_SP + 1) % 256 > 127 ∧ aCPU.mUpperData = none) ∨
        aCPU.sfr .REG_SP = 255) →
      (push_to_stack aCPU aValue).2 = [EM8051_EXCEPTION.EXCEPTION_STACK.val] ∧
      (push_to_stack aCPU aValue).2.count EM8051_EXCEPTION.EXCEPTION_STACK.val = 1) ∧
    (¬ (((aCPU.sfr .REG_SP + 1) % 256 > 127 ∧ aCPU.mUpperData = none) ∨
        aCPU.sfr .REG_SP = 255) →
      (push_to_stack aCPU aValue).2 = []) := by
  refine ⟨push_to_stack_sp aCPU aValue hc, push_to_stack_stored aCPU aValue hc, ?_, ?_⟩
  · intro h
    rw [push_to_stack_raised aCPU aValue hc, if_pos h]
    exact ⟨rfl, by simp⟩
  · intro h
    rw [push_to_stack_raised aCPU aValue hc, if_neg h]

theorem push_to_stack_spec_witness :
    sample_full.wf ∧
    (((sample_full.sfr .REG_SP + 1) % 256 > 127 ∧ sample_full.mUpperData = none) ∨
      sample_full.sfr .REG_SP = 255) ∧
    (push_to_stack sample_full 0x42).1.sfr .REG_SP = 128 ∧
    (push_to_stack sample_full 0x42).2 = [0] :=
  ⟨sample_full_wf, by decide,
    (push_to_stack_spec sample_full 0x42 sample_full_wf).1,
    ((push_to_stack_spec sample_full 0x42 sample_full_wf).2.2.1 (by decide)).1⟩

/-! ## Interrupt return -/

theorem iret_keep_eq :
    0xFF ^^^ PSW_IRET_IGNORED =
      PSW_MASKS.PSWMASK_OV.val ||| PSW_MASKS.PSWMASK_RS0.val ||| PSW_MASKS.PSWMASK_RS1.val |||
        PSW_MASKS.PSWMASK_AC.val ||| PSW_MASKS.PSWMASK_C.val := by
  decide

theorem iret_psw_agree (x y : Nat)
    (h : ∀ m : PSW_MASKS, m ≠ .PSWMASK_P → m ≠ .PSWMASK_UNUSED → m ≠ .PSWMASK_F0 →
      x &&& m.val = y &&& m.val) :
    x &&& (0xFF ^^^ PSW_IRET_IGNORED) = y &&& (0xFF ^^^ PSW_IRET_IGNORED) := by
  rw [iret_keep_eq]
  simp only [Nat.and_or_distrib_left]
  rw [h .PSWMASK_OV (by decide) (by decide) (by decide),
    h .PSWMASK_RS0 (by decide) (by decide) (by decide),
    h .PSWMASK_RS1 (by decide) (by decide) (by decide),
    h .PSWMASK_AC (by decide) (by decide) (by decide),
    h .PSWMASK_C (by decide) (by decide) (by decide)]

/-- C4: at the return of an interrupt of level L, if the accumulator equals the snapshot
`int_a[L]` and the status word equals the snapshot `int_psw[L]` on every flag other than
P, UNUSED and F0, then: with the stack pointer equal to `int_sp[L]` no mismatch exception
is raised, and with only the stack pointer different exactly
`EXCEPTION_IRET_SP_MISMATCH` is raised, neither the PSW nor the accumulator code. -/
theorem iret_check_spec (aCPU : em8051) (aLevel : Nat)
    (hacc : aCPU.int_a.getD aLevel 0 = aCPU.sfr .REG_ACC)
    (hpsw : ∀ m : PSW_MASKS, m ≠ .PSWMASK_P → m ≠ .PSWMASK_UNUSED → m ≠ .PSWMASK_F0 →
      aCPU.int_psw.getD aLevel 0 &&& m.val = aCPU.sfr .REG_PSW &&& m.val) :
    (aCPU.int_sp.getD aLevel 0 = aCPU.sfr .REG_SP → iret_check aCPU aLevel = []) ∧
    (aCPU.int_sp.getD aLevel 0 ≠ aCPU.sfr .REG_SP →
      iret_check aCPU aLevel = [EM8051_EXCEPTION.EXCEPTION_IRET_SP_MISMATCH.val] ∧
      EM8051_EXCEPTION.EXCEPTION_IRET_PSW_MISMATCH.val ∉ iret_check aCPU aLevel ∧
      EM8051_EXCEPTION.EXCEPTION_IRET_ACC_MISMATCH.val ∉ iret_check aCPU aLevel) := by
  have hk := iret_psw_agree _ _ hpsw
  constructor
  · intro hsp
    unfold iret_check
    dsimp only
    rw [if_neg (not_not.mpr hacc), if_neg (not_not.mpr hk), if_neg (not_not.mpr hsp)]
    rfl
  · intro hsp
    have hres : iret_check aCPU aLevel = [EM8051_EXCEPTION.EXCEPTION_IRET_SP_MISMATCH.val] := by
      unfold iret_check
      dsimp only
      rw [if_neg (not_not.mpr hacc), if_neg (not_not.mpr hk), if_pos hsp]
      rfl
    rw [hres]
    exact ⟨rfl, by decide, by decide⟩

theorem iret_check_spec_witness :
    sample_isr.int_sp.getD 1 0 ≠ sample_isr.sfr .REG_SP ∧
      iret_check sample_isr 1 = [3] :=
  ⟨by decide,
    ((iret_check_spec sample_isr 1 (by decide)
      (by intro m; cases m <;> decide)).2 (by decide)).1⟩

/-! ## Reset -/

theorem wipe_length (m : List Nat) : (wipe m).length = m.length := by
  simp [wipe]

theorem wipe_read (m : List Nat) (a : Nat) (h : a < m.length) : (wipe m)[a]? = some 0 := by
  simp [wipe, h]

theorem default_table_length : default_table.length = 256 := by
  simp [default_table]

theorem default_table_slot (i : Nat) (h : i < 256) :
    default_table.getD i .null = .builtin i := by
  simp [default_table, List.getD_eq_getElem?_getD, h]

/-- C7: `reset(cpu, wipe)`: with wipe true every byte of lower data, of upper data (when
installed) and of external data reads as zero afterwards; with wipe false those data
memories are unchanged and the program counter is the architecture's entry vector; in both
cases all 256 slots of `op` and of `dec` and the five callbacks are installed. -/
theorem reset_spec (arch : PowerOn) (aCPU : em8051) :
    ((reset arch aCPU true).mLowerData.length = aCPU.mLowerData.length ∧
      ∀ a, a < aCPU.mLowerData.length → (reset arch aCPU true).mLowerData[a]? = some 0) ∧
    (∀ u, aCPU.mUpperData = some u → ∃ v, (reset arch aCPU true).mUpperData = some v ∧
      v.length = u.length ∧ ∀ a, a < u.length → v[a]? = some 0) ∧
    (aCPU.mUpperData = none → (reset arch aCPU true).mUpperData = none) ∧
    ((reset arch aCPU true).mExtData.length = aCPU.mExtData.length ∧
      ∀ a, a < aCPU.mExtData.length → (reset arch aCPU true).mExtData[a]? = some 0) ∧
    (reset arch aCPU true).mPC = arch.entry ∧
    (reset arch aCPU false).mLowerData = aCPU.mLowerData ∧
    (reset arch aCPU false).mUpperData = aCPU.mUpperData ∧
    (reset arch aCPU false).mExtData = aCPU.mExtData ∧
    (reset arch aCPU false).mPC = arch.entry ∧
    (∀ w : Bool, (reset arch aCPU w).op.length = 256 ∧ (reset arch aCPU w).dec.length = 256 ∧
      (∀ i, i < 256 → (reset arch aCPU w).op.getD i .null ≠ .null ∧
        (reset arch aCPU w).dec.getD i .null ≠ .null) ∧
      (reset arch aCPU w).except_cb ≠ .null ∧ (reset arch aCPU w).sfrread ≠ .null ∧
      (reset arch aCPU w).sfrwrite ≠ .null ∧ (reset arch aCPU w).xread ≠ .null ∧
      (reset arch aCPU w).xwrite ≠ .null) := by
  refine ⟨⟨wipe_length _, fun a h => wipe_read _ a h⟩, ?_, ?_,
    ⟨wipe_length _, fun a h => wipe_read _ a h⟩, rfl, rfl, rfl, rfl, rfl, ?_⟩
  · intro u hu
    refine ⟨wipe u, ?_, wipe_length u, fun a h => wipe_read u a h⟩
    simp [reset, hu]
  · intro hu
    simp [reset, hu]
  · intro w
    refine ⟨default_table_length, default_table_length, ?_, ?_, ?_, ?_, ?_, ?_⟩
    · intro i hi
      have hs := default_table_slot i hi
      constructor
      · show default_table.getD i .null ≠ .null
        rw [hs]; exact fun h => FnPtr.noConfusion h
      · show default_table.getD i .null ≠ .null
        rw [hs]; exact fun h => FnPtr.noConfusion h
    all_goals exact fun h => FnPtr.noConfusion h

set_option maxRecDepth 100000 in
theorem reset_spec_witness :
    sample_dirty.mLowerData[5]? = some 0x99 ∧ 5 < sample_dirty.mLowerData.length ∧
      (reset arch8051 sample_dirty true).mLowerData[5]? = some 0 ∧
      (reset arch8051 sample_dirty true).op.getD 0xA5 .null ≠ .null :=
  ⟨by decide, by decide, (reset_spec arch8051 sample_dirty).1.2 5 (by decide),
    (((reset_spec arch8051 sample_dirty).2.2.2.2.2.2.2.2.2 true).2.2.1 0xA5 (by decide)).1⟩

/-! ## Tick engine -/

end Emu8051
